import Mathlib

/-!
Shallow embedding of the movie CRUD service
(`src/routes/movies.py`, `src/schemas/movies.py`).

Dates are modelled as integers (day numbers), so `today + 365 days` is
`today + 365`.  The numeric fields `score`, `budget`, `revenue` (Python
floats used only with order comparisons) are modelled as rationals.
The relational store is a list of records plus the next auto-assigned id;
each operation receives the store and returns its result together with the
committed store (the store is returned unchanged whenever the handler
raises, since `db.commit()` is only reached on the success path).
-/

/-- A persisted movie row (`MovieModel` / `MovieDetailResponseSchema`). -/
structure MovieModel where
  id : Nat
  name : String
  date : Int
  score : ℚ
  genre : String
  overview : String
  crew : String
  orig_title : String
  status : String
  orig_lang : String
  budget : ℚ
  revenue : ℚ
  country : String
  deriving DecidableEq

/-- `MovieCreateRequestSchema`: all fields required, no id. -/
structure MovieCreateRequestSchema where
  name : String
  date : Int
  score : ℚ
  genre : String
  overview : String
  crew : String
  orig_title : String
  status : String
  orig_lang : String
  budget : ℚ
  revenue : ℚ
  country : String
  deriving DecidableEq

/-- `MovieUpdateRequestSchema`: seven optional fields, all defaulting to null. -/
structure MovieUpdateRequestSchema where
  name : Option String := none
  date : Option Int := none
  score : Option ℚ := none
  overview : Option String := none
  status : Option String := none
  budget : Option ℚ := none
  revenue : Option ℚ := none
  deriving DecidableEq

/-- The relational store: rows plus the next id the store will assign. -/
structure MovieStore where
  movies : List MovieModel
  nextId : Nat
  deriving DecidableEq

def emptyStore : MovieStore := ⟨[], 1⟩

/-- The three error kinds raised by the handlers (`HTTPException`s). -/
inductive ApiError where
  | notFound (detail : String)
  | badRequest (detail : String)
  | conflict (detail : String)
  deriving DecidableEq

/-- HTTP status code of each error kind. -/
def statusCode : ApiError → Nat
  | .notFound _ => 404
  | .badRequest _ => 400
  | .conflict _ => 409

/-- The paged response (`MovieListResponseSchema`). -/
structure MovieListResponseSchema where
  movies : List MovieModel
  prev_page : Option String
  next_page : Option String
  total_pages : Nat
  total_items : Nat
  deriving DecidableEq

/-- `GET /movies/{movie_id}/`. -/
def get_movie_by_id (movie_id : Nat) (db : MovieStore) : Except ApiError MovieModel :=
  match db.movies.find? (fun m => m.id == movie_id) with
  | none => .error (.notFound "Movie with the given ID was not found.")
  | some movie => .ok movie

/-- The fixed link prefix (`rut_url` in the source). -/
def rut_url : String := "/api/v1/theater/"

/-- `GET /movies/` with validated query params `page ≥ 1`, `per_page ∈ [1,20]`.
A read: the store is not returned because it is never modified. -/
def get_list_movies (page per_page : Nat) (db : MovieStore) :
    Except ApiError MovieListResponseSchema :=
  let movies := (db.movies.drop ((page - 1) * per_page)).take per_page
  if movies.isEmpty then
    .error (.notFound "No movies found.")
  else
    let total_items := db.movies.length
    let total_pages := (total_items + per_page - 1) / per_page
    .ok { movies := movies
          prev_page :=
            if page > 1 then
              some (rut_url ++ "movies/?page=" ++ toString (page - 1) ++
                "&per_page=" ++ toString per_page)
            else none
          next_page :=
            if page < total_pages then
              some (rut_url ++ "movies/?page=" ++ toString (page + 1) ++
                "&per_page=" ++ toString per_page)
            else none
          total_pages := total_pages
          total_items := total_items }

/-- The row inserted by `create_movie` once the store assigns id `i`. -/
def newMovieOf (movie : MovieCreateRequestSchema) (i : Nat) : MovieModel :=
  { id := i
    name := movie.name
    date := movie.date
    score := movie.score
    genre := movie.genre
    overview := movie.overview
    crew := movie.crew
    orig_title := movie.orig_title
    status := movie.status
    orig_lang := movie.orig_lang
    budget := movie.budget
    revenue := movie.revenue
    country := movie.country }

/-- The duplicate `(name, date)` conflict detail string. -/
def conflictMsg (name : String) (d : Int) : String :=
  "A movie with the name \x27" ++ name ++ "\x27 and release date \x27" ++
    toString d ++ "\x27 already exists."

/-- `POST /movies/`.  `today` is the value of `date.today()`. -/
def create_movie (today : Int) (movie : MovieCreateRequestSchema) (db : MovieStore) :
    Except ApiError MovieModel × MovieStore :=
  if movie.name.length > 255 then
    (.error (.badRequest "Name must not exceed 255 characters."), db)
  else if movie.date > today + 365 then
    (.error (.badRequest "Movie date must not be more than one year in the future."), db)
  else if ¬ (0 ≤ movie.score ∧ movie.score ≤ 100) then
    (.error (.badRequest "Score must be between 0 and 100."), db)
  else if movie.budget < 0 then
    (.error (.badRequest "Budget must be a non-negative number."), db)
  else if movie.revenue < 0 then
    (.error (.badRequest "Revenue must be a non-negative number."), db)
  else
    match db.movies.find? (fun m => m.name == movie.name && m.date == movie.date) with
    | some _ => (.error (.conflict (conflictMsg movie.name movie.date)), db)
    | none =>
      let new_movie := newMovieOf movie db.nextId
      (.ok new_movie, ⟨db.movies ++ [new_movie], db.nextId + 1⟩)

/-- `DELETE /movies/{movie_id}/`. -/
def delete_movie (movie_id : Nat) (db : MovieStore) : Except ApiError Unit × MovieStore :=
  match db.movies.find? (fun m => m.id == movie_id) with
  | none => (.error (.notFound "Movie with the given ID was not found."), db)
  | some _ => (.ok (), ⟨db.movies.eraseP (fun m => m.id == movie_id), db.nextId⟩)

/-- `if data.score is not None: ...` step of `update_movie`. -/
def applyScore (data : MovieUpdateRequestSchema) (m : MovieModel) :
    Except ApiError MovieModel :=
  match data.score with
  | none => .ok m
  | some s =>
    if ¬ (0 ≤ s ∧ s ≤ 100) then .error (.badRequest "Invalid input data.")
    else .ok { m with score := s }

/-- `if data.budget is not None: ...` step of `update_movie`. -/
def applyBudget (data : MovieUpdateRequestSchema) (m : MovieModel) :
    Except ApiError MovieModel :=
  match data.budget with
  | none => .ok m
  | some b =>
    if b < 0 then .error (.badRequest "Invalid input data.")
    else .ok { m with budget := b }

/-- `if data.revenue is not None: ...` step of `update_movie`. -/
def applyRevenue (data : MovieUpdateRequestSchema) (m : MovieModel) :
    Except ApiError MovieModel :=
  match data.revenue with
  | none => .ok m
  | some r =>
    if r < 0 then .error (.badRequest "Invalid input data.")
    else .ok { m with revenue := r }

/-- The four unconditional `if ... is not None` assignments of `update_movie`
(name, date, overview, status carry no validation). -/
def applyRest (data : MovieUpdateRequestSchema) (m : MovieModel) : MovieModel :=
  let m := match data.name with
    | none => m
    | some v => { m with name := v }
  let m := match data.date with
    | none => m
    | some v => { m with date := v }
  let m := match data.overview with
    | none => m
    | some v => { m with overview := v }
  match data.status with
  | none => m
  | some v => { m with status := v }

/-- The whole field-application sequence of `update_movie`, in source order:
score, budget, revenue, then name/date/overview/status. -/
def update_fields (data : MovieUpdateRequestSchema) (m : MovieModel) :
    Except ApiError MovieModel :=
  match applyScore data m with
  | .error e => .error e
  | .ok m =>
    match applyBudget data m with
    | .error e => .error e
    | .ok m =>
      match applyRevenue data m with
      | .error e => .error e
      | .ok m => .ok (applyRest data m)

/-- `PATCH /movies/{movie_id}/`.  The ORM object is mutated in memory and the
store only changes at the final `db.commit()`, modelled as replacing the row
with the matching id. -/
def update_movie (movie_id : Nat) (data : MovieUpdateRequestSchema) (db : MovieStore) :
    Except ApiError String × MovieStore :=
  match db.movies.find? (fun m => m.id == movie_id) with
  | none => (.error (.notFound "Movie with the given ID was not found."), db)
  | some existing_movie =>
    match update_fields data existing_movie with
    | .error e => (.error e, db)
    | .ok updated =>
      (.ok "Movie updated successfully.",
        ⟨db.movies.map (fun m => if m.id == movie_id then updated else m), db.nextId⟩)

/-- The five field validations of `create_movie`, as the spec lists them. -/
def passesFieldChecks (today : Int) (movie : MovieCreateRequestSchema) : Prop :=
  movie.name.length ≤ 255 ∧ movie.date ≤ today + 365 ∧
    (0 ≤ movie.score ∧ movie.score ≤ 100) ∧ 0 ≤ movie.budget ∧ 0 ≤ movie.revenue

instance (today : Int) (movie : MovieCreateRequestSchema) :
    Decidable (passesFieldChecks today movie) := by
  unfold passesFieldChecks; infer_instance

deriving instance DecidableEq for Except

/-! ### Helper lemmas -/

lemma take_isEmpty_false {l : List MovieModel} {off k : ℕ} (hk : 1 ≤ k)
    (h : ((l.drop off).take k).isEmpty = false) : off < l.length := by
  by_contra hge
  push_neg at hge
  have hnil : l.drop off = [] := List.drop_eq_nil_iff.2 hge
  simp [hnil] at h

lemma lt_length_of_not_isEmpty {l : List MovieModel} {off k : ℕ} (hk : 1 ≤ k)
    (h : ¬ ((l.drop off).take k).isEmpty = true) : off < l.length :=
  take_isEmpty_false hk (by simpa using h)

lemma page_le_ceil {page per_page L : ℕ} (hpage : 1 ≤ page) (hp : 1 ≤ per_page)
    (h : (page - 1) * per_page < L) : page ≤ (L + per_page - 1) / per_page := by
  rw [Nat.le_div_iff_mul_le hp]
  have hmul : page * per_page = (page - 1) * per_page + per_page := by
    obtain ⟨k, rfl⟩ := Nat.exists_eq_add_of_le hpage
    simp [Nat.add_comm 1 k, Nat.succ_mul]
  rw [hmul]
  omega

lemma nat_ceil_div (L p : ℕ) (hp : 0 < p) :
    (L + p - 1) / p = ⌈(L : ℚ) / (p : ℚ)⌉₊ := by
  rcases Nat.eq_zero_or_pos L with hL | hL
  · subst hL
    rw [Nat.div_eq_of_lt (by omega)]
    simp
  · have hn : (L + p - 1) / p ≠ 0 := by
      have : 1 * p ≤ L + p - 1 := by omega
      have := (Nat.le_div_iff_mul_le hp).2 this
      omega
    have hpq : (0 : ℚ) < (p : ℚ) := by exact_mod_cast hp
    symm
    rw [Nat.ceil_eq_iff hn]
    constructor
    · rw [lt_div_iff hpq]
      have h1 : (L + p - 1) / p * p ≤ L + p - 1 := Nat.div_mul_le_self _ _
      have h2 : ((L + p - 1) / p - 1) * p + p = (L + p - 1) / p * p := by
        have hone : 1 ≤ (L + p - 1) / p := Nat.one_le_iff_ne_zero.2 hn
        obtain ⟨k, hk⟩ := Nat.exists_eq_add_of_le hone
        rw [hk]
        simp [Nat.add_comm 1 k, Nat.succ_mul]
      have : ((L + p - 1) / p - 1) * p < L := by omega
      exact_mod_cast this
    · rw [div_le_iff hpq]
      have h1 : L + p - 1 < (L + p - 1) / p * p + p := Nat.lt_div_mul_add hp
      have : L ≤ (L + p - 1) / p * p := by omega
      exact_mod_cast this

lemma rut_url_movies : rut_url ++ "movies/?page=" = "/api/v1/theater/movies/?page=" := rfl

/-! ### C2: empty page is NotFound -/

/-- C2: with `page ≥ 1` and `per_page ∈ [1,20]`, whenever the slice of records
at offset `(page-1)*per_page` of size `per_page` is empty — in particular when
the store is empty or the page is past the end — `get_list_movies` fails with
the NotFound error (`statusCode` 404) instead of returning an empty list. -/
theorem c2_empty_page_not_found (page per_page : ℕ) (db : MovieStore)
    (hpage : 1 ≤ page) (hp1 : 1 ≤ per_page) (hp20 : per_page ≤ 20)
    (hempty : (db.movies.drop ((page - 1) * per_page)).take per_page = []) :
    get_list_movies page per_page db = .error (.notFound "No movies found.") ∧
      statusCode (.notFound "No movies found.") = 404 := by
  constructor
  · simp only [get_list_movies]
    rw [if_pos]
    simp [hempty]
  · rfl

/-- Witness for C2: page 2 of an empty store. -/
theorem c2_empty_page_not_found_witness :
    get_list_movies 2 10 emptyStore = .error (.notFound "No movies found.") ∧
      statusCode (.notFound "No movies found.") = 404 :=
  c2_empty_page_not_found 2 10 emptyStore (by decide) (by decide) (by decide) (by decide)

/-! ### C3: shape of a successful paged response -/

/-- C3: on any successful `get_list_movies page per_page` with `page ≥ 1`,
`per_page ∈ [1,20]`: at most `per_page` movies are returned,
`total_pages = ⌈total_items / per_page⌉`, `prev_page` is null iff `page = 1`
and otherwise is `/api/v1/theater/movies/?page={page-1}&per_page={per_page}`,
and `next_page` is null iff `page = total_pages` and otherwise is
`/api/v1/theater/movies/?page={page+1}&per_page={per_page}`. -/
theorem c3_list_paginated_shape (page per_page : ℕ) (db : MovieStore)
    (resp : MovieListResponseSchema) (hpage : 1 ≤ page) (hp1 : 1 ≤ per_page)
    (hp20 : per_page ≤ 20)
    (h : get_list_movies page per_page db = .ok resp) :
    resp.movies.length ≤ per_page ∧
    resp.total_items = db.movies.length ∧
    resp.total_pages = ⌈(resp.total_items : ℚ) / (per_page : ℚ)⌉₊ ∧
    (resp.prev_page = none ↔ page = 1) ∧
    (page ≠ 1 →
      resp.prev_page = some ("/api/v1/theater/movies/?page=" ++ toString (page - 1) ++
        "&per_page=" ++ toString per_page)) ∧
    (resp.next_page = none ↔ page = resp.total_pages) ∧
    (page ≠ resp.total_pages →
      resp.next_page = some ("/api/v1/theater/movies/?page=" ++ toString (page + 1) ++
        "&per_page=" ++ toString per_page)) := by
  simp only [get_list_movies] at h
  by_cases hemp : ((db.movies.drop ((page - 1) * per_page)).take per_page).isEmpty = true
  · rw [if_pos hemp] at h
    exact absurd h (by simp)
  · rw [if_neg hemp] at h
    have hoff : (page - 1) * per_page < db.movies.length :=
      lt_length_of_not_isEmpty hp1 hemp
    have hle : page ≤ (db.movies.length + per_page - 1) / per_page :=
      page_le_ceil hpage hp1 hoff
    have hresp := (Except.ok.inj h).symm
    subst hresp
    refine ⟨?_, rfl, ?_, ?_, ?_, ?_, ?_⟩
    · simpa [List.length_take] using min_le_left per_page _
    · exact nat_ceil_div _ _ hp1
    · by_cases h1 : 1 < page
      · simp only [if_pos h1]
        constructor
        · intro hc; exact absurd hc (by simp)
        · intro hc; omega
      · simp only [if_neg h1]
        constructor
        · intro _; omega
        · intro _; trivial
    · intro hne
      have h1 : 1 < page := by omega
      simp only [if_pos h1, rut_url_movies]
    · by_cases h2 : page < (db.movies.length + per_page - 1) / per_page
      · simp only [if_pos h2]
        constructor
        · intro hc; exact absurd hc (by simp)
        · intro hc; omega
      · simp only [if_neg h2]
        constructor
        · intro _; omega
        · intro _; trivial
    · intro hne
      have h2 : page < (db.movies.length + per_page - 1) / per_page :=
        lt_of_le_of_ne hle hne
      simp only [if_pos h2, rut_url_movies]

/-- A sample persisted row, used by concrete witnesses. -/
def sampleMovie : MovieModel :=
  { id := 1, name := "A", date := 0, score := 80, genre := "g", overview := "o",
    crew := "c", orig_title := "t", status := "s", orig_lang := "l",
    budget := 1000, revenue := 2000, country := "US" }

/-- A store holding exactly `sampleMovie`. -/
def sampleStore : MovieStore := ⟨[sampleMovie], 2⟩

/-- The paged response for page 1, per_page 10 of `sampleStore`. -/
def sampleResp : MovieListResponseSchema :=
  { movies := [sampleMovie], prev_page := none, next_page := none,
    total_pages := 1, total_items := 1 }

/-- Witness for C3 at page 1, per_page 10 over a one-row store. -/
theorem c3_list_paginated_shape_witness :
    sampleResp.movies.length ≤ 10 ∧ (sampleResp.prev_page = none ↔ (1 : ℕ) = 1) ∧
      (sampleResp.next_page = none ↔ (1 : ℕ) = sampleResp.total_pages) := by
  have h := c3_list_paginated_shape 1 10 sampleStore sampleResp (by decide) (by decide)
    (by decide) (by decide)
  exact ⟨h.1, h.2.2.2.1, h.2.2.2.2.2.1⟩

/-! ### Characterization of successful `create_movie` -/

lemma create_movie_ok {today : Int} {movie : MovieCreateRequestSchema} {db : MovieStore}
    {m : MovieModel} {db' : MovieStore}
    (h : create_movie today movie db = (.ok m, db')) :
    passesFieldChecks today movie ∧
    db.movies.find? (fun x => x.name == movie.name && x.date == movie.date) = none ∧
    m = newMovieOf movie db.nextId ∧
    db' = ⟨db.movies ++ [m], db.nextId + 1⟩ := by
  unfold create_movie at h
  split_ifs at h with h1 h2 h3 h4 h5
  all_goals try exact Except.noConfusion (congrArg Prod.fst h)
  rcases hf : db.movies.find? (fun x => x.name == movie.name && x.date == movie.date)
    with _ | y
  · rw [hf] at h
    simp only [Prod.mk.injEq, Except.ok.injEq] at h
    obtain ⟨hm, hdb⟩ := h
    refine ⟨?_, hf, hm.symm, ?_⟩
    · exact ⟨by omega, by omega, h3, not_lt.mp h4, not_lt.mp h5⟩
    · rw [← hdb, ← hm]
  · rw [hf] at h
    exact Except.noConfusion (congrArg Prod.fst h)

lemma create_movie_success {today : Int} {movie : MovieCreateRequestSchema}
    {db : MovieStore} (hpass : passesFieldChecks today movie)
    (hnodup : db.movies.find? (fun x => x.name == movie.name && x.date == movie.date) = none) :
    create_movie today movie db =
      (.ok (newMovieOf movie db.nextId),
        ⟨db.movies ++ [newMovieOf movie db.nextId], db.nextId + 1⟩) := by
  obtain ⟨hn, hd, hs, hb, hr⟩ := hpass
  unfold create_movie
  rw [if_neg (by omega), if_neg (by omega), if_neg (not_not_intro hs),
    if_neg (not_lt.mpr hb), if_neg (not_lt.mpr hr), hnodup]

/-! ### C1: order of the create validations -/

/-- C1: the five create validations run in the fixed order name-length, date
bound, score range, budget, revenue; the first failing check short-circuits
with its own distinct message, every failure is the BadRequest kind (status
400), and the store is returned untouched whatever it contains — so every
field check happens before the uniqueness check and before any persistence. -/
theorem c1_create_validation_order (today : Int) (movie : MovieCreateRequestSchema)
    (db : MovieStore) :
    (∀ d, statusCode (.badRequest d) = 400) ∧
    (255 < movie.name.length →
      create_movie today movie db =
        (.error (.badRequest "Name must not exceed 255 characters."), db)) ∧
    (movie.name.length ≤ 255 → today + 365 < movie.date →
      create_movie today movie db =
        (.error (.badRequest "Movie date must not be more than one year in the future."), db)) ∧
    (movie.name.length ≤ 255 → movie.date ≤ today + 365 →
      ¬ (0 ≤ movie.score ∧ movie.score ≤ 100) →
      create_movie today movie db =
        (.error (.badRequest "Score must be between 0 and 100."), db)) ∧
    (movie.name.length ≤ 255 → movie.date ≤ today + 365 →
      (0 ≤ movie.score ∧ movie.score ≤ 100) → movie.budget < 0 →
      create_movie today movie db =
        (.error (.badRequest "Budget must be a non-negative number."), db)) ∧
    (movie.name.length ≤ 255 → movie.date ≤ today + 365 →
      (0 ≤ movie.score ∧ movie.score ≤ 100) → 0 ≤ movie.budget → movie.revenue < 0 →
      create_movie today movie db =
        (.error (.badRequest "Revenue must be a non-negative number."), db)) := by
  refine ⟨fun d => rfl, ?_, ?_, ?_, ?_, ?_⟩
  · intro h1
    unfold create_movie
    rw [if_pos (by omega)]
  · intro h1 h2
    unfold create_movie
    rw [if_neg (by omega), if_pos (by omega)]
  · intro h1 h2 h3
    unfold create_movie
    rw [if_neg (by omega), if_neg (by omega), if_pos h3]
  · intro h1 h2 h3 h4
    unfold create_movie
    rw [if_neg (by omega), if_neg (by omega), if_neg (not_not_intro h3), if_pos h4]
  · intro h1 h2 h3 h4 h5
    unfold create_movie
    rw [if_neg (by omega), if_neg (by omega), if_neg (not_not_intro h3),
      if_neg (not_lt.mpr h4), if_pos h5]

/-- A 256-character name, one over the limit. -/
def longName : String := ⟨List.replicate 256 'a'⟩

/-- A create input whose only violation is its 256-character name. -/
def longNameInput : MovieCreateRequestSchema :=
  { name := longName, date := 0, score := 80, genre := "g", overview := "o", crew := "c",
    orig_title := "t", status := "s", orig_lang := "l", budget := 0, revenue := 0,
    country := "US" }

set_option maxRecDepth 8192 in
/-- Witness for C1: the over-long name fails first with its distinct message. -/
theorem c1_create_validation_order_witness :
    255 < longNameInput.name.length ∧
      create_movie 0 longNameInput emptyStore =
        (.error (.badRequest "Name must not exceed 255 characters."), emptyStore) :=
  ⟨by decide, (c1_create_validation_order 0 longNameInput emptyStore).2.1 (by decide)⟩

/-! ### C4: inclusive boundaries of score and date -/

/-- A create input with adjustable score and date, all other fields valid. -/
def c4Input (score : ℚ) (d : Int) : MovieCreateRequestSchema :=
  { name := "A", date := d, score := score, genre := "g", overview := "o", crew := "c",
    orig_title := "t", status := "s", orig_lang := "l", budget := 0, revenue := 0,
    country := "US" }

/-- C4: against an empty store, score 100 passes and score 150 fails with
BadRequest; date `today + 365` passes and `today + 366` fails with BadRequest
— both boundaries are inclusive, for every value of `today`. -/
theorem c4_inclusive_boundaries (today : Int) :
    (∃ m st, create_movie today (c4Input 100 today) emptyStore = (.ok m, st)) ∧
    create_movie today (c4Input 150 today) emptyStore =
      (.error (.badRequest "Score must be between 0 and 100."), emptyStore) ∧
    statusCode (.badRequest "Score must be between 0 and 100.") = 400 ∧
    (∃ m st, create_movie today (c4Input 80 (today + 365)) emptyStore = (.ok m, st)) ∧
    create_movie today (c4Input 80 (today + 366)) emptyStore =
      (.error (.badRequest "Movie date must not be more than one year in the future."),
        emptyStore) ∧
    statusCode (.badRequest "Movie date must not be more than one year in the future.") =
      400 := by
  have hp100 : passesFieldChecks today (c4Input 100 today) :=
    ⟨by show ("A" : String).length ≤ 255; decide,
     by show (today : Int) ≤ today + 365; omega,
     by show (0 : ℚ) ≤ 100 ∧ (100 : ℚ) ≤ 100; decide,
     by show (0 : ℚ) ≤ 0; decide, by show (0 : ℚ) ≤ 0; decide⟩
  have hp365 : passesFieldChecks today (c4Input 80 (today + 365)) :=
    ⟨by show ("A" : String).length ≤ 255; decide,
     by show today + 365 ≤ today + 365; omega,
     by show (0 : ℚ) ≤ 80 ∧ (80 : ℚ) ≤ 100; decide,
     by show (0 : ℚ) ≤ 0; decide, by show (0 : ℚ) ≤ 0; decide⟩
  refine ⟨⟨newMovieOf (c4Input 100 today) 1, ⟨[newMovieOf (c4Input 100 today) 1], 2⟩, ?_⟩,
    ?_, rfl,
    ⟨newMovieOf (c4Input 80 (today + 365)) 1, ⟨[newMovieOf (c4Input 80 (today + 365)) 1], 2⟩, ?_⟩,
    ?_, rfl⟩
  · exact create_movie_success hp100 rfl
  · unfold create_movie
    rw [if_neg (by show ¬(("A" : String).length > 255); decide),
      if_neg (by show ¬((today : Int) > today + 365); omega),
      if_pos (by show ¬((0 : ℚ) ≤ 150 ∧ (150 : ℚ) ≤ 100); decide)]
  · exact create_movie_success hp365 rfl
  · unfold create_movie
    rw [if_neg (by show ¬(("A" : String).length > 255); decide),
      if_pos (by show today + 366 > today + 365; omega)]

/-! ### C5: duplicate (name, date) yields Conflict -/

lemma create_conflict_of_dup {today : Int} {movie : MovieCreateRequestSchema}
    {db : MovieStore} (hpass : passesFieldChecks today movie)
    (hdup : ∃ x ∈ db.movies, x.name = movie.name ∧ x.date = movie.date) :
    create_movie today movie db =
      (.error (.conflict (conflictMsg movie.name movie.date)), db) := by
  obtain ⟨hn, hd, hs, hb, hr⟩ := hpass
  unfold create_movie
  rw [if_neg (by omega), if_neg (by omega), if_neg (not_not_intro hs),
    if_neg (not_lt.mpr hb), if_neg (not_lt.mpr hr)]
  have hsome : (db.movies.find? (fun x => x.name == movie.name && x.date == movie.date)).isSome := by
    rw [List.find?_isSome]
    obtain ⟨x, hx, h1, h2⟩ := hdup
    exact ⟨x, hx, by simp [h1, h2]⟩
  rcases hf : db.movies.find? (fun x => x.name == movie.name && x.date == movie.date)
    with _ | y
  · rw [hf] at hsome
    simp at hsome
  · rw [hf]

/-- C5: (1) for every create input passing the five field validations, if a
record with identical name and date is already stored, `create_movie` fails
with the Conflict error (status 409) and returns the store untouched — no
record is persisted; (2) hence a second create with the same (name, date) as
a previous successful one returns Conflict. -/
theorem c5_duplicate_conflict :
    (∀ (today : Int) (movie : MovieCreateRequestSchema) (db : MovieStore),
      passesFieldChecks today movie →
      (∃ x ∈ db.movies, x.name = movie.name ∧ x.date = movie.date) →
      create_movie today movie db =
        (.error (.conflict (conflictMsg movie.name movie.date)), db) ∧
        statusCode (.conflict (conflictMsg movie.name movie.date)) = 409) ∧
    (∀ (today₁ today₂ : Int) (movie₁ movie₂ : MovieCreateRequestSchema)
        (db db₁ : MovieStore) (created : MovieModel),
      create_movie today₁ movie₁ db = (.ok created, db₁) →
      movie₂.name = movie₁.name → movie₂.date = movie₁.date →
      passesFieldChecks today₂ movie₂ →
      create_movie today₂ movie₂ db₁ =
        (.error (.conflict (conflictMsg movie₂.name movie₂.date)), db₁)) := by
  constructor
  · intro today movie db hpass hdup
    exact ⟨create_conflict_of_dup hpass hdup, rfl⟩
  · intro today₁ today₂ movie₁ movie₂ db db₁ created h hname hdate hpass
    obtain ⟨_, _, hm, hdb⟩ := create_movie_ok h
    refine create_conflict_of_dup hpass ⟨created, ?_, ?_, ?_⟩
    · rw [hdb]
      simp
    · rw [hm, hname]
      rfl
    · rw [hm, hdate]
      rfl

/-- The create input matching `sampleMovie`. -/
def sampleCreate : MovieCreateRequestSchema :=
  { name := "A", date := 0, score := 80, genre := "g", overview := "o", crew := "c",
    orig_title := "t", status := "s", orig_lang := "l", budget := 1000, revenue := 2000,
    country := "US" }

/-- Witness for C5: creating the same movie twice, the second call conflicts. -/
theorem c5_duplicate_conflict_witness :
    create_movie 0 sampleCreate emptyStore =
      (.ok (newMovieOf sampleCreate 1), ⟨[newMovieOf sampleCreate 1], 2⟩) ∧
    create_movie 0 sampleCreate ⟨[newMovieOf sampleCreate 1], 2⟩ =
      (.error (.conflict (conflictMsg sampleCreate.name sampleCreate.date)),
        ⟨[newMovieOf sampleCreate 1], 2⟩) :=
  ⟨by decide,
   c5_duplicate_conflict.2 0 0 sampleCreate sampleCreate emptyStore
     ⟨[newMovieOf sampleCreate 1], 2⟩ (newMovieOf sampleCreate 1) (by decide)
     rfl rfl (by decide)⟩

/-! ### C7: create then get_by_id round-trip -/

/-- C7: if the store is well-formed (every stored id is below `nextId`) and
`create_movie` succeeds, then `get_movie_by_id` at the returned id yields a
record equal to the create input on all twelve shared fields. -/
theorem c7_create_get_roundtrip (today : Int) (movie : MovieCreateRequestSchema)
    (db : MovieStore) (m : MovieModel) (db' : MovieStore)
    (hwf : ∀ x ∈ db.movies, x.id < db.nextId)
    (h : create_movie today movie db = (.ok m, db')) :
    get_movie_by_id m.id db' = .ok m ∧
    m.name = movie.name ∧ m.date = movie.date ∧ m.score = movie.score ∧
    m.genre = movie.genre ∧ m.overview = movie.overview ∧ m.crew = movie.crew ∧
    m.orig_title = movie.orig_title ∧ m.status = movie.status ∧
    m.orig_lang = movie.orig_lang ∧ m.budget = movie.budget ∧
    m.revenue = movie.revenue ∧ m.country = movie.country := by
  obtain ⟨_, _, hm, hdb⟩ := create_movie_ok h
  subst hdb
  refine ⟨?_, by rw [hm]; rfl, by rw [hm]; rfl, by rw [hm]; rfl, by rw [hm]; rfl,
    by rw [hm]; rfl, by rw [hm]; rfl, by rw [hm]; rfl, by rw [hm]; rfl,
    by rw [hm]; rfl, by rw [hm]; rfl, by rw [hm]; rfl, by rw [hm]; rfl⟩
  unfold get_movie_by_id
  have hnone : db.movies.find? (fun x => x.id == m.id) = none := by
    rw [List.find?_eq_none]
    intro x hx
    have hlt : x.id < db.nextId := hwf x hx
    have : x.id ≠ m.id := by rw [hm]; exact Nat.ne_of_lt hlt
    simp [this]
  have happ : (db.movies ++ [m]).find? (fun x => x.id == m.id) = some m := by
    rw [List.find?_append, hnone]
    simp
  rw [happ]

/-- Witness for C7 on a concrete create against the empty store. -/
theorem c7_create_get_roundtrip_witness :
    get_movie_by_id (newMovieOf sampleCreate 1).id ⟨[newMovieOf sampleCreate 1], 2⟩ =
      .ok (newMovieOf sampleCreate 1) ∧
    (newMovieOf sampleCreate 1).name = sampleCreate.name := by
  have h := c7_create_get_roundtrip 0 sampleCreate emptyStore (newMovieOf sampleCreate 1)
    ⟨[newMovieOf sampleCreate 1], 2⟩ (by intro x hx; simp [emptyStore] at hx) (by decide)
  exact ⟨h.1, h.2.1⟩

/-! ### C9: failures leave the store untouched -/

/-- C9: whenever `create_movie` or `update_movie` returns any error
(BadRequest, Conflict or NotFound), the store it returns is exactly the store
it was given — no record is created and no field of any record is changed,
for update even when a later per-field check fails after an earlier present
field was already processed. -/
theorem c9_atomic_failure :
    (∀ (today : Int) (movie : MovieCreateRequestSchema) (db : MovieStore)
        (e : ApiError) (st : MovieStore),
      create_movie today movie db = (.error e, st) → st = db) ∧
    (∀ (movie_id : Nat) (data : MovieUpdateRequestSchema) (db : MovieStore)
        (e : ApiError) (st : MovieStore),
      update_movie movie_id data db = (.error e, st) → st = db) := by
  constructor
  · intro today movie db e st h
    unfold create_movie at h
    split_ifs at h
    all_goals try exact ((Prod.mk.injEq _ _ _ _).mp h).2.symm
    rcases hf : db.movies.find? (fun x => x.name == movie.name && x.date == movie.date)
      with _ | y
    · rw [hf] at h
      exact Except.noConfusion (congrArg Prod.fst h)
    · rw [hf] at h
      exact ((Prod.mk.injEq _ _ _ _).mp h).2.symm
  · intro movie_id data db e st h
    unfold update_movie at h
    rcases hf : db.movies.find? (fun x => x.id == movie_id) with _ | existing
    · rw [hf] at h
      exact ((Prod.mk.injEq _ _ _ _).mp h).2.symm
    · rw [hf] at h
      dsimp only at h
      rcases hu : update_fields data existing with e' | updated
      · rw [hu] at h
        exact ((Prod.mk.injEq _ _ _ _).mp h).2.symm
      · rw [hu] at h
        exact Except.noConfusion (congrArg Prod.fst h)

/-- A create input rejected by the score check. -/
def badScoreInput : MovieCreateRequestSchema :=
  { name := "A", date := 0, score := 150, genre := "g", overview := "o", crew := "c",
    orig_title := "t", status := "s", orig_lang := "l", budget := 0, revenue := 0,
    country := "US" }

/-- Witness for C9: a failing create hands back the very store it received. -/
theorem c9_atomic_failure_witness :
    create_movie 0 badScoreInput emptyStore =
      (.error (.badRequest "Score must be between 0 and 100."), emptyStore) ∧
    emptyStore = emptyStore :=
  ⟨by decide,
   c9_atomic_failure.1 0 badScoreInput emptyStore
     (.badRequest "Score must be between 0 and 100.") emptyStore (by decide)⟩

/-! ### Characterization of successful `update_movie` -/

/-- The record produced by a fully successful field application: every present
field takes the supplied value, every absent field keeps the stored value. -/
def patch (data : MovieUpdateRequestSchema) (m : MovieModel) : MovieModel :=
  { m with
    name := data.name.getD m.name
    date := data.date.getD m.date
    score := data.score.getD m.score
    overview := data.overview.getD m.overview
    status := data.status.getD m.status
    budget := data.budget.getD m.budget
    revenue := data.revenue.getD m.revenue }

lemma applyScore_ok {data : MovieUpdateRequestSchema} {m m' : MovieModel}
    (h : applyScore data m = .ok m') : m' = { m with score := data.score.getD m.score } := by
  unfold applyScore at h
  rcases hs : data.score with _ | s
  · rw [hs] at h
    try dsimp only at h
    exact (Except.ok.inj h).symm
  · rw [hs] at h
    try dsimp only at h
    split_ifs at h
    all_goals first
      | exact Except.noConfusion h
      | exact (Except.ok.inj h).symm

lemma applyBudget_ok {data : MovieUpdateRequestSchema} {m m' : MovieModel}
    (h : applyBudget data m = .ok m') : m' = { m with budget := data.budget.getD m.budget } := by
  unfold applyBudget at h
  rcases hb : data.budget with _ | b
  · rw [hb] at h
    try dsimp only at h
    exact (Except.ok.inj h).symm
  · rw [hb] at h
    try dsimp only at h
    split_ifs at h
    all_goals first
      | exact Except.noConfusion h
      | exact (Except.ok.inj h).symm

lemma applyRevenue_ok {data : MovieUpdateRequestSchema} {m m' : MovieModel}
    (h : applyRevenue data m = .ok m') :
    m' = { m with revenue := data.revenue.getD m.revenue } := by
  unfold applyRevenue at h
  rcases hr : data.revenue with _ | r
  · rw [hr] at h
    try dsimp only at h
    exact (Except.ok.inj h).symm
  · rw [hr] at h
    try dsimp only at h
    split_ifs at h
    all_goals first
      | exact Except.noConfusion h
      | exact (Except.ok.inj h).symm

lemma applyRest_eq (data : MovieUpdateRequestSchema) (m : MovieModel) :
    applyRest data m =
      { m with
        name := data.name.getD m.name
        date := data.date.getD m.date
        overview := data.overview.getD m.overview
        status := data.status.getD m.status } := by
  unfold applyRest
  rcases data with ⟨n, d, sc, o, stt, b, r⟩
  cases n <;> cases d <;> cases o <;> cases stt <;> rfl

lemma update_fields_ok {data : MovieUpdateRequestSchema} {m m' : MovieModel}
    (h : update_fields data m = .ok m') : m' = patch data m := by
  unfold update_fields at h
  rcases h1 : applyScore data m with e | m1
  · rw [h1] at h
    exact Except.noConfusion h
  · rw [h1] at h
    dsimp only at h
    rcases h2 : applyBudget data m1 with e | m2
    · rw [h2] at h
      exact Except.noConfusion h
    · rw [h2] at h
      dsimp only at h
      rcases h3 : applyRevenue data m2 with e | m3
      · rw [h3] at h
        exact Except.noConfusion h
      · rw [h3] at h
        dsimp only at h
        have hm1 := applyScore_ok h1
        have hm2 := applyBudget_ok h2
        have hm3 := applyRevenue_ok h3
        have hm' := (Except.ok.inj h).symm
        rw [hm', applyRest_eq, hm3, hm2, hm1]
        rfl

lemma update_movie_ok {movie_id : Nat} {data : MovieUpdateRequestSchema}
    {db : MovieStore} {msg : String} {db' : MovieStore}
    (h : update_movie movie_id data db = (.ok msg, db')) :
    msg = "Movie updated successfully." ∧
    ∃ existing, db.movies.find? (fun x => x.id == movie_id) = some existing ∧
      update_fields data existing = .ok (patch data existing) ∧
      db' = ⟨db.movies.map (fun x => if x.id == movie_id then patch data existing else x),
        db.nextId⟩ := by
  unfold update_movie at h
  rcases hf : db.movies.find? (fun x => x.id == movie_id) with _ | existing
  · rw [hf] at h
    exact Except.noConfusion (congrArg Prod.fst h)
  · rw [hf] at h
    dsimp only at h
    rcases hu : update_fields data existing with e | updated
    · rw [hu] at h
      exact Except.noConfusion (congrArg Prod.fst h)
    · rw [hu] at h
      dsimp only at h
      obtain ⟨hmsg, hdb⟩ := (Prod.mk.injEq _ _ _ _).mp h
      have hupd := update_fields_ok hu
      refine ⟨(Except.ok.inj hmsg).symm, existing, hf, ?_, ?_⟩
      · rw [hu, hupd]
      · rw [← hdb, hupd]

/-! ### C6: partial update touches exactly the present fields -/

/-- C6: on a successful `update_movie` of an existing record, only the record
with the matching id is replaced; its new value takes each of the seven
optional fields (name, date, score, overview, status, budget, revenue) from
the input when present and keeps the stored value when absent, and its id,
genre, crew, orig_title, orig_lang and country are never changed. -/
theorem c6_partial_update_frame (movie_id : Nat) (data : MovieUpdateRequestSchema)
    (db : MovieStore) (existing : MovieModel) (msg : String) (db' : MovieStore)
    (hfind : db.movies.find? (fun x => x.id == movie_id) = some existing)
    (h : update_movie movie_id data db = (.ok msg, db')) :
    ∃ updated,
      db'.movies = db.movies.map (fun x => if x.id == movie_id then updated else x) ∧
      db'.nextId = db.nextId ∧
      updated.id = existing.id ∧
      updated.genre = existing.genre ∧
      updated.crew = existing.crew ∧
      updated.orig_title = existing.orig_title ∧
      updated.orig_lang = existing.orig_lang ∧
      updated.country = existing.country ∧
      updated.name = data.name.getD existing.name ∧
      updated.date = data.date.getD existing.date ∧
      updated.score = data.score.getD existing.score ∧
      updated.overview = data.overview.getD existing.overview ∧
      updated.status = data.status.getD existing.status ∧
      updated.budget = data.budget.getD existing.budget ∧
      updated.revenue = data.revenue.getD existing.revenue := by
  obtain ⟨hmsg, ex2, hfind2, hupd, hdb⟩ := update_movie_ok h
  rw [hfind] at hfind2
  obtain rfl := (Option.some.inj hfind2)
  exact ⟨patch data existing, by rw [hdb], by rw [hdb], rfl, rfl, rfl, rfl, rfl, rfl,
    rfl, rfl, rfl, rfl, rfl, rfl, rfl⟩

/-- The partial input { "score": 50 }. -/
def scoreOnlyUpdate : MovieUpdateRequestSchema := { score := some 50 }

/-- Witness for C6: updating only the score of `sampleMovie` changes score to
50 and leaves genre and budget (and the rest) untouched. -/
theorem c6_partial_update_frame_witness :
    ∃ updated,
      (⟨[{ sampleMovie with score := 50 }], 2⟩ : MovieStore).movies =
        sampleStore.movies.map (fun x => if x.id == (1 : Nat) then updated else x) ∧
      updated.score = (50 : ℚ) ∧ updated.genre = sampleMovie.genre ∧
      updated.budget = sampleMovie.budget := by
  obtain ⟨u, h1, _, _, hg, _, _, _, _, _, _, hs, _, _, hb, _⟩ :=
    c6_partial_update_frame 1 scoreOnlyUpdate sampleStore sampleMovie
      "Movie updated successfully." ⟨[{ sampleMovie with score := 50 }], 2⟩
      (by decide) (by decide)
  refine ⟨u, h1, ?_, hg, ?_⟩
  · rw [hs]
    rfl
  · rw [hb]
    rfl

/-! ### C10: the all-absent update is a successful no-op -/

/-- The update input with every optional field absent. -/
def allNoneUpdate : MovieUpdateRequestSchema := {}

/-- C10: for an existing record id (in a store whose ids are unique, as the
primary key guarantees), an update whose seven fields are all null succeeds
with the success confirmation and returns the store completely unchanged. -/
theorem c10_all_absent_update_noop (movie_id : Nat) (db : MovieStore)
    (existing : MovieModel)
    (hfind : db.movies.find? (fun x => x.id == movie_id) = some existing)
    (hnodup : (db.movies.map MovieModel.id).Nodup) :
    update_movie movie_id allNoneUpdate db = (.ok "Movie updated successfully.", db) := by
  have hmem : existing ∈ db.movies := List.mem_of_find?_eq_some hfind
  have hexid : (existing.id == movie_id) = true := by
    have hx := List.find?_some hfind
    simpa using hx
  have hmap : db.movies.map (fun x => if x.id == movie_id then existing else x) =
      db.movies := by
    have hcongr : ∀ x ∈ db.movies, (if x.id == movie_id then existing else x) = id x := by
      intro x hx
      by_cases hid : (x.id == movie_id) = true
      · rw [if_pos hid]
        have : x.id = existing.id := by
          have h1 : x.id = movie_id := beq_iff_eq.mp hid
          have h2 : existing.id = movie_id := beq_iff_eq.mp hexid
          rw [h1, h2]
        exact (List.inj_on_of_nodup_map hnodup hmem hx this.symm)
      · rw [if_neg hid]
        rfl
    rw [List.map_congr_left hcongr, List.map_id]
  unfold update_movie
  rw [hfind]
  dsimp only
  have hupd : update_fields allNoneUpdate existing = .ok existing := rfl
  rw [hupd]
  dsimp only
  rw [hmap]

/-- Witness for C10 on the one-row sample store. -/
theorem c10_all_absent_update_noop_witness :
    update_movie 1 allNoneUpdate sampleStore =
      (.ok "Movie updated successfully.", sampleStore) :=
  c10_all_absent_update_noop 1 sampleStore sampleMovie (by decide) (by decide)

/-! ### C8: the stored-name-length invariant -/

lemma delete_movie_ok {movie_id : Nat} {db : MovieStore} {u : Unit} {db' : MovieStore}
    (h : delete_movie movie_id db = (.ok u, db')) :
    db' = ⟨db.movies.eraseP (fun x => x.id == movie_id), db.nextId⟩ := by
  unfold delete_movie at h
  rcases hf : db.movies.find? (fun x => x.id == movie_id) with _ | y
  · rw [hf] at h
    exact Except.noConfusion (congrArg Prod.fst h)
  · rw [hf] at h
    exact (((Prod.mk.injEq _ _ _ _).mp h).2).symm

/-- States reachable from the empty store through successful service
operations, where every update input must satisfy `P` (failed operations
return the store unchanged, so they reach no new state). -/
inductive ReachableVia (P : MovieUpdateRequestSchema → Prop) : MovieStore → Prop where
  | init : ReachableVia P emptyStore
  | step_create (today : Int) (movie : MovieCreateRequestSchema) (s : MovieStore)
      (m : MovieModel) (s' : MovieStore) :
      ReachableVia P s → create_movie today movie s = (.ok m, s') → ReachableVia P s'
  | step_update (movie_id : Nat) (data : MovieUpdateRequestSchema) (s : MovieStore)
      (msg : String) (s' : MovieStore) :
      ReachableVia P s → P data → update_movie movie_id data s = (.ok msg, s') →
      ReachableVia P s'
  | step_delete (movie_id : Nat) (s : MovieStore) (u : Unit) (s' : MovieStore) :
      ReachableVia P s → delete_movie movie_id s = (.ok u, s') → ReachableVia P s'

/-- States reachable through the service's operations, unrestricted. -/
def Reachable : MovieStore → Prop := ReachableVia (fun _ => True)

/-- Update inputs whose supplied name (if any) respects the 255 bound. -/
def NameBounded (data : MovieUpdateRequestSchema) : Prop :=
  ∀ n, data.name = some n → n.length ≤ 255

/-- The update input that renames to the 256-character name. -/
def longNameUpdate : MovieUpdateRequestSchema := { name := some longName }

set_option maxRecDepth 8192 in
/-- C8 counterexample: a reachable state with a 256-character stored name —
create a valid movie, then rename it through `update_movie`, which checks
only score/budget/revenue and never the name length. -/
theorem c8_name_invariant_counterexample :
    ∃ s, Reachable s ∧ ¬ (∀ m ∈ s.movies, m.name.length ≤ 255) := by
  refine ⟨⟨[{ newMovieOf sampleCreate 1 with name := longName }], 2⟩, ?_, ?_⟩
  · exact ReachableVia.step_update 1 longNameUpdate ⟨[newMovieOf sampleCreate 1], 2⟩
      "Movie updated successfully." _
      (ReachableVia.step_create 0 sampleCreate emptyStore (newMovieOf sampleCreate 1) _
        ReachableVia.init (by decide))
      trivial (by decide)
  · decide

/-- C8 amended: in every state reachable through the service's operations in
which update inputs never supply a name longer than 255 characters, every
stored movie record has a name of length ≤ 255 (create always enforces the
bound; update enforces it only if its input does). -/
theorem c8_name_invariant_amended (s : MovieStore)
    (h : ReachableVia NameBounded s) : ∀ m ∈ s.movies, m.name.length ≤ 255 := by
  induction h with
  | init =>
    intro m hm
    simp [emptyStore] at hm
  | step_create today movie s0 m0 s' hre hc ih =>
    obtain ⟨hpass, _, hm0, hdb⟩ := create_movie_ok hc
    subst hdb
    intro x hx
    rcases List.mem_append.mp hx with hx1 | hx2
    · exact ih x hx1
    · have hx0 : x = m0 := by simpa using hx2
      subst hx0
      rw [hm0]
      exact hpass.1
  | step_update movie_id data s0 msg s' hre hP hu ih =>
    obtain ⟨_, existing, hfind, _, hdb⟩ := update_movie_ok hu
    subst hdb
    intro x hx
    obtain ⟨y, hy, hxy⟩ := List.mem_map.mp hx
    by_cases hid : (y.id == movie_id) = true
    · rw [if_pos hid] at hxy
      rw [← hxy]
      rcases hn : data.name with _ | n
      · have hname : (patch data existing).name = existing.name := by
          simp [patch, hn]
        rw [hname]
        exact ih existing (List.mem_of_find?_eq_some hfind)
      · have hname : (patch data existing).name = n := by
          simp [patch, hn]
        rw [hname]
        exact hP n hn
    · rw [if_neg hid] at hxy
      rw [← hxy]
      exact ih y hy
  | step_delete movie_id s0 u s' hre hd ih =>
    have hdb := delete_movie_ok hd
    subst hdb
    intro x hx
    exact ih x ((List.eraseP_sublist _).subset hx)

/-- Witness for the amended C8 on a concrete reachable one-row store. -/
theorem c8_name_invariant_amended_witness :
    (newMovieOf sampleCreate 1).name.length ≤ 255 :=
  c8_name_invariant_amended ⟨[newMovieOf sampleCreate 1], 2⟩
    (ReachableVia.step_create 0 sampleCreate emptyStore (newMovieOf sampleCreate 1) _
      ReachableVia.init (by decide))
    (newMovieOf sampleCreate 1) (by simp)

/-- Witness for C4 instantiated at `today = 0`. -/
theorem c4_inclusive_boundaries_witness :
    create_movie 0 (c4Input 150 0) emptyStore =
      (.error (.badRequest "Score must be between 0 and 100."), emptyStore) :=
  (c4_inclusive_boundaries 0).2.1
